import Mathlib

/-!
Shallow embedding of the `http` package of andrewhowdencom/stdlib:
an instrumented, deadline-bounded HTTP client/server construction layer.

Durations are modelled as `Int` nanoseconds (Go's `time.Duration`).
Mutation through pointers (the Go code mutates `*http.Transport` through
the pointer returned by `getTransport`) is modelled by rebuilding the
enclosing value, which is observationally the same for a single-threaded
construction sequence.
-/

namespace StdlibHttp

/-- Go `time.Duration`, in nanoseconds. -/
abbrev Duration := Int

def second : Duration := 1000000000

def millisecond : Duration := 1000000

/-- OS termination signals recognised by `Run` (`os.Interrupt`, `syscall.SIGTERM`). -/
inductive Sig where
  | interrupt
  | term
deriving DecidableEq, Repr

/-- Go `error` values produced or wrapped by this package.
`wrapServerError e` is `fmt.Errorf("server error: %w", err)`;
`wrapShutdownError e sig` is
`fmt.Errorf("could not stop server gracefully: %w (signal: %v)", err, sig)`. -/
inductive GoError where
  | msg (s : String)
  | errServerClosed
  | deadlineExceeded
  | wrapServerError (e : GoError)
  | wrapShutdownError (e : GoError) (sig : Sig)
deriving DecidableEq, Repr

/-- `errors.Unwrap` on the wrapping constructors (Go `%w`). -/
def GoError.unwrap : GoError → Option GoError
  | .wrapServerError e => some e
  | .wrapShutdownError e _ => some e
  | _ => none

/-- Which signal a shutdown error is annotated with (the `(signal: %v)` part). -/
def GoError.signalOf : GoError → Option Sig
  | .wrapShutdownError _ s => some s
  | _ => none

/-- `net.Dialer` as configured by `WithConnectTimeout` (Timeout, KeepAlive). -/
structure Dialer where
  timeout : Duration
  keepAlive : Duration
deriving DecidableEq, Repr

/-- `*net/http.Transport`, restricted to the fields this package touches. -/
structure Transport where
  proxyFromEnvironment : Bool
  forceAttemptHTTP2 : Bool
  dialContext : Option Dialer
  tlsHandshakeTimeout : Duration
  responseHeaderTimeout : Duration
  maxIdleConns : Int
  idleConnTimeout : Duration
  expectContinueTimeout : Duration
deriving DecidableEq, Repr

/-- An opaque tracer provider (`trace.TracerProvider`). -/
structure TracerProvider where
  id : Nat
deriving DecidableEq, Repr

/-- An opaque tracer, obtained from a provider under an instrumentation name. -/
structure Tracer where
  providerId : Nat
  name : String
deriving DecidableEq, Repr

/-- An opaque meter provider (`metric.MeterProvider`). Creating a named
instrument from one of its meters may fail; `instrumentErrors` records which
instrument names fail and with what error (the global no-op provider has none). -/
structure MeterProvider where
  id : Nat
  instrumentErrors : List (String × GoError)
deriving DecidableEq, Repr

/-- An opaque meter, obtained from a provider under an instrumentation name. -/
structure Meter where
  providerId : Nat
  name : String
  instrumentErrors : List (String × GoError)
deriving DecidableEq, Repr

/-- A created metric instrument (histogram or up/down counter), by name. -/
structure Instrument where
  name : String
deriving DecidableEq, Repr

def TracerProvider.tracer (tp : TracerProvider) (name : String) : Tracer :=
  ⟨tp.id, name⟩

def MeterProvider.meter (mp : MeterProvider) (name : String) : Meter :=
  ⟨mp.id, name, mp.instrumentErrors⟩

/-- Creating a named instrument on a meter: fails iff the provider is
configured to fail for that name. Models both `Float64Histogram` and
`Int64UpDownCounter` (the failure behaviour is what matters here). -/
def Meter.instrument (m : Meter) (name : String) : Except GoError Instrument :=
  match m.instrumentErrors.lookup name with
  | some e => .error e
  | none => .ok ⟨name⟩

def instrumentationName : String := "github.com/andrewhowdencom/stdlib/http"

/-- The mutable instrument/telemetry fields of `InstrumentedTransport`
(everything except `Base`). `duration` is the client-side request-duration
histogram set by `WithClientMeterProvider`; `waitTime`/`activeRequests` are
the connection-wait histogram and active-request counter. -/
structure ITFields where
  tracer : Option Tracer := none
  meter : Option Meter := none
  waitTime : Option Instrument := none
  activeRequests : Option Instrument := none
  duration : Option Instrument := none
deriving DecidableEq, Repr

/-- `http.RoundTripper` values that occur in this package: `nil`, a concrete
`*http.Transport`, an `*InstrumentedTransport` (base + telemetry fields), or
any other caller-supplied implementation (opaque, tagged). -/
inductive RoundTripper where
  | nil
  | transport (t : Transport)
  | instrumented (base : RoundTripper) (fields : ITFields)
  | other (tag : Nat)
deriving DecidableEq, Repr

/-- `*http.Client`, restricted to the fields this package touches. -/
structure Client where
  transport : RoundTripper
  timeout : Duration
deriving DecidableEq, Repr

def errNotTransport : GoError := .msg "transport is not *http.Transport"

/-- `getTransport`: returns the underlying `*http.Transport` from the client,
handling both a direct `*http.Transport` and a wrapped `*InstrumentedTransport`. -/
def getTransport (c : Client) : Except GoError Transport :=
  match c.transport with
  | .transport t => .ok t
  | .instrumented base _ =>
    match base with
    | .transport t => .ok t
    | _ => .error errNotTransport
  | _ => .error errNotTransport

/-- Mutating the `*http.Transport` found by `getTransport` through its pointer:
in value semantics, rebuild the client with the transport replaced by `f t`,
in whichever position `getTransport` found it. Fails exactly when
`getTransport` fails. -/
def setTransport (c : Client) (f : Transport → Transport) : Except GoError Client :=
  match c.transport with
  | .transport t => .ok { c with transport := .transport (f t) }
  | .instrumented base fields =>
    match base with
    | .transport t => .ok { c with transport := .instrumented (.transport (f t)) fields }
    | _ => .error errNotTransport
  | _ => .error errNotTransport

/-- `ensureInstrumentedTransport`: if the client's transport is already an
`InstrumentedTransport`, return the existing one (and the client untouched);
otherwise wrap the current transport and install the wrapper. Returns the
instrumented transport (as base + fields) together with the client state. -/
def ensureInstrumentedTransport (c : Client) : (RoundTripper × ITFields) × Client :=
  match c.transport with
  | .instrumented base fields => ((base, fields), c)
  | rt => ((rt, {}), { c with transport := .instrumented rt {} })

/-- `ClientOption`: a mutator on `*http.Client` that can fail. -/
abbrev ClientOption := Client → Except GoError Client

/-- `WithTimeout` sets the total request timeout (`Client.Timeout`). -/
def WithTimeout (d : Duration) : ClientOption := fun c =>
  .ok { c with timeout := d }

/-- `WithConnectTimeout` re-creates the dialer with the new timeout,
preserving the 30s KeepAlive. -/
def WithConnectTimeout (d : Duration) : ClientOption := fun c =>
  setTransport c (fun t => { t with dialContext := some ⟨d, 30 * second⟩ })

/-- `WithTLSHandshakeTimeout` sets the TLS handshake timeout. -/
def WithTLSHandshakeTimeout (d : Duration) : ClientOption := fun c =>
  setTransport c (fun t => { t with tlsHandshakeTimeout := d })

/-- `WithResponseHeaderTimeout` sets the response header timeout. -/
def WithResponseHeaderTimeout (d : Duration) : ClientOption := fun c =>
  setTransport c (fun t => { t with responseHeaderTimeout := d })

/-- `WithMaxIdleConns` sets the maximum number of idle connections. -/
def WithMaxIdleConns (n : Int) : ClientOption := fun c =>
  setTransport c (fun t => { t with maxIdleConns := n })

/-- `WithIdleConnTimeout` sets the idle connection timeout. -/
def WithIdleConnTimeout (d : Duration) : ClientOption := fun c =>
  setTransport c (fun t => { t with idleConnTimeout := d })

/-- `WithExpectContinueTimeout` sets the Expect-Continue timeout. -/
def WithExpectContinueTimeout (d : Duration) : ClientOption := fun c =>
  setTransport c (fun t => { t with expectContinueTimeout := d })

/-- `WithClientTracerProvider`: ensure the transport is instrumented, then set
its tracer (a field write through the pointer `ensureInstrumentedTransport`
returned, i.e. on the transport installed in the client). -/
def WithClientTracerProvider (tp : TracerProvider) : ClientOption := fun c =>
  let ((base, fields), c') := ensureInstrumentedTransport c
  let fields' := { fields with tracer := some (tp.tracer instrumentationName) }
  .ok { c' with transport := .instrumented base fields' }

/-- `WithClientMeterProvider`: ensure the transport is instrumented, set its
meter, and create the request-duration histogram; a creation error is returned
(the caller discards the half-mutated client). -/
def WithClientMeterProvider (mp : MeterProvider) : ClientOption := fun c =>
  let ((base, fields), c') := ensureInstrumentedTransport c
  let m := mp.meter instrumentationName
  match m.instrument "http.client.request.duration" with
  | .error e => .error e
  | .ok h =>
    let fields' := { fields with meter := some m, duration := some h }
    .ok { c' with transport := .instrumented base fields' }

/-- The aggressive client defaults (`defaultClientOptions`). -/
def defaultClientOptions : List ClientOption :=
  [ WithTimeout (2 * second)
  , WithConnectTimeout (500 * millisecond)
  , WithTLSHandshakeTimeout (500 * millisecond)
  , WithResponseHeaderTimeout (1500 * millisecond)
  , WithMaxIdleConns 100
  , WithIdleConnTimeout (90 * second)
  , WithExpectContinueTimeout (1 * second) ]

/-- The `for _, opt := range opts { if err := opt(c); err != nil { return nil, err } }`
loop: apply options in order, aborting with the first error. -/
def applyClientOptions : List ClientOption → Client → Except GoError Client
  | [], c => .ok c
  | opt :: rest, c =>
    match opt c with
    | .error e => .error e
    | .ok c' => applyClientOptions rest c'

/-- The base client built by `NewClient` before any mutator runs: a fresh
`*http.Transport` with only `Proxy` and `ForceAttemptHTTP2` set (all timeout
fields at their zero values). -/
def initialClient : Client :=
  { transport := .transport
      { proxyFromEnvironment := true
      , forceAttemptHTTP2 := true
      , dialContext := none
      , tlsHandshakeTimeout := 0
      , responseHeaderTimeout := 0
      , maxIdleConns := 0
      , idleConnTimeout := 0
      , expectContinueTimeout := 0 }
  , timeout := 0 }

/-- `NewClient`: build the base client, apply the defaults in declared order,
then the caller's options in call order; the first error aborts construction. -/
def NewClient (opts : List ClientOption) : Except GoError Client :=
  match applyClientOptions defaultClientOptions initialClient with
  | .error e => .error e
  | .ok c => applyClientOptions opts c

/-! ## Server construction (src/http/server.go) -/

/-- `http.Handler` values that occur in this package: the default mux, a
caller-supplied handler (opaque, tagged), or the instrumented wrapper around a
base handler (with its tracer, meter and active-request counter). -/
inductive Handler where
  | defaultServeMux
  | user (tag : Nat)
  | instrumented (base : Handler) (tracer : Tracer) (meter : Meter) (activeRequests : Instrument)
deriving DecidableEq, Repr

/-- `*net/http.Server`, restricted to the fields this package touches.
`connStateHook` records whether the open-connections `ConnState` callback has
been installed. -/
structure StdServer where
  addr : String
  handler : Option Handler
  readTimeout : Duration
  writeTimeout : Duration
  idleTimeout : Duration
  connStateHook : Bool
deriving DecidableEq, Repr

/-- The package's `Server` wrapper. -/
structure Server where
  server : StdServer
  tracer : Option Tracer
  meter : Option Meter
  openConnections : Option Instrument
  activeRequests : Option Instrument
deriving DecidableEq, Repr

/-- `ServerOption`: a mutator on `*Server` that can fail. -/
abbrev ServerOption := Server → Except GoError Server

/-- `WithReadTimeout` sets the ReadTimeout. -/
def WithReadTimeout (d : Duration) : ServerOption := fun s =>
  .ok { s with server := { s.server with readTimeout := d } }

/-- `WithWriteTimeout` sets the WriteTimeout. -/
def WithWriteTimeout (d : Duration) : ServerOption := fun s =>
  .ok { s with server := { s.server with writeTimeout := d } }

/-- `WithIdleTimeout` sets the IdleTimeout. -/
def WithIdleTimeout (d : Duration) : ServerOption := fun s =>
  .ok { s with server := { s.server with idleTimeout := d } }

/-- `WithServerTracerProvider` sets the server tracer from the provider. -/
def WithServerTracerProvider (tp : TracerProvider) : ServerOption := fun s =>
  .ok { s with tracer := some (tp.tracer instrumentationName) }

/-- `WithServerMeterProvider` sets the server meter from the provider. -/
def WithServerMeterProvider (mp : MeterProvider) : ServerOption := fun s =>
  .ok { s with meter := some (mp.meter instrumentationName) }

/-- The aggressive server defaults (`defaultServerOptions`). -/
def defaultServerOptions : List ServerOption :=
  [ WithReadTimeout (2 * second)
  , WithWriteTimeout (2 * second)
  , WithIdleTimeout (2 * second) ]

/-- Option application loop for the server, aborting with the first error. -/
def applyServerOptions : List ServerOption → Server → Except GoError Server
  | [], s => .ok s
  | opt :: rest, s =>
    match opt s with
    | .error e => .error e
    | .ok s' => applyServerOptions rest s'

/-- The process-wide ambient tracer provider (`otel.GetTracerProvider()`). -/
def globalTracerProvider : TracerProvider := ⟨0⟩

/-- The process-wide ambient meter provider (`otel.GetMeterProvider()`);
creating instruments on the default (no-op) provider never fails. -/
def globalMeterProvider : MeterProvider := ⟨0, []⟩

/-- The finalization tail of `NewServer` (lines after the option loops): fall
back to ambient tracer/meter, create the two up/down counters (aborting on
error), install the `ConnState` hook, and wrap the handler (defaulting a nil
handler to `DefaultServeMux`) in `instrumentedHandler`. -/
def finalizeServer (s : Server) : Except GoError Server :=
  let tr := s.tracer.getD (globalTracerProvider.tracer instrumentationName)
  let m := s.meter.getD (globalMeterProvider.meter instrumentationName)
  match m.instrument "http.server.open_connections" with
  | .error e => .error e
  | .ok oc =>
    match m.instrument "http.server.active_requests" with
    | .error e => .error e
    | .ok ar =>
      let baseHandler := s.server.handler.getD .defaultServeMux
      .ok { s with
              tracer := some tr
            , meter := some m
            , openConnections := some oc
            , activeRequests := some ar
            , server := { s.server with
                            connStateHook := true
                          , handler := some (.instrumented baseHandler tr m ar) } }

/-- The base state `NewServer` builds before any mutator runs. -/
def initialServer (addr : String) (handler : Option Handler) : Server :=
  { server := { addr := addr, handler := handler
              , readTimeout := 0, writeTimeout := 0, idleTimeout := 0
              , connStateHook := false }
  , tracer := none, meter := none
  , openConnections := none, activeRequests := none }

/-- `NewServer`: build the base server, apply the defaults in declared order,
then the caller's options in call order (first error aborts), then finalize
instrumentation. -/
def NewServer (addr : String) (handler : Option Handler) (opts : List ServerOption) :
    Except GoError Server :=
  match applyServerOptions defaultServerOptions (initialServer addr handler) with
  | .error e => .error e
  | .ok s1 =>
    match applyServerOptions opts s1 with
    | .error e => .error e
    | .ok s2 => finalizeServer s2

/-! ## Shutdown coordinator (`Server.Run`) -/

/-- The first event `Run`'s `select` observes: either a fatal listener error
delivered on `serverErrors` (the goroutine filters out `ErrServerClosed`), or
an OS termination signal delivered on `shutdown`. -/
inductive FirstEvent where
  | listenerError (e : GoError)
  | signal (sig : Sig)
deriving DecidableEq, Repr

/-- What the listener goroutine sends on `serverErrors`: the
`ListenAndServe` result, except that `nil` and `http.ErrServerClosed` are
swallowed (graceful close is not a fatal listener error). -/
def listenerChannelSend (res : Option GoError) : Option GoError :=
  match res with
  | none => none
  | some e => if e = .errServerClosed then none else some e

/-- The fixed grace budget `Run` passes to `context.WithTimeout` (5 seconds). -/
def shutdownGracePeriod : Duration := 5 * second

/-- `net/http.Server.Shutdown` under the grace-budget context, modelled from
its documented contract (the engine itself is an external collaborator):
returns nil when the drain (in-flight requests plus listener close, taking
`drainTime`) completes within the budget, and the context's
`DeadlineExceeded` error when the budget elapses first. -/
def shutdownResult (drainTime : Duration) : Option GoError :=
  if drainTime ≤ shutdownGracePeriod then none else some .deadlineExceeded

/-- The outcome of `Run`: its returned error (if any) and whether a graceful
drain (`Shutdown`) was attempted. -/
structure RunResult where
  result : Option GoError
  drainAttempted : Bool
deriving DecidableEq, Repr

/-- `Server.Run`'s `select`: a listener error is wrapped as
`"server error: %w"` and returned with no drain; a termination signal starts
a drain bounded by the 5s grace budget, returning nil on success and the
shutdown error annotated with the signal on failure. -/
def runServer (first : FirstEvent) (drainTime : Duration) : RunResult :=
  match first with
  | .listenerError e => { result := some (.wrapServerError e), drainAttempted := false }
  | .signal sig =>
    match shutdownResult drainTime with
    | some e => { result := some (.wrapShutdownError e sig), drainAttempted := true }
    | none => { result := none, drainAttempted := true }

/-! ## Instrumentation runtime (src/http/instrumentation.go) -/

/-- An outbound/inbound `*http.Request`, restricted to what the decorators
read or write. `injectedTraceHeaders` counts how many times a propagation
injection wrote trace-context headers into the request; `ctxSpanRecording`
says whether the span bound to the request's context is recording. -/
structure Request where
  method : String
  urlPath : String
  urlScheme : String
  host : String
  userAgent : String
  injectedTraceHeaders : Nat
  ctxSpanRecording : Bool
deriving DecidableEq, Repr

/-- An `*http.Response`, restricted to the status code. -/
structure Response where
  statusCode : Int
deriving DecidableEq, Repr

/-- `otel.GetTextMapPropagator().Inject(...)`: writes one layer of
trace-context headers into the outbound request. -/
def injectPropagation (r : Request) : Request :=
  { r with injectedTraceHeaders := r.injectedTraceHeaders + 1 }

/-- What a `RoundTrip` delegate does: return `(resp, err)` (either may be
nil), or panic (in which case the deferred cleanups still run and the panic
propagates). -/
inductive RoundTripOutcome where
  | normal (resp : Option Response) (err : Option GoError)
  | panicked
deriving DecidableEq, Repr

/-- An opaque `RoundTripper` implementation as a behaviour. -/
abbrev TransportBehavior := Request → RoundTripOutcome

/-- Observable side effects of one decorated call, in execution order:
active-request counter adds, the delegation to the wrapped capability, and
span operations on the recording span. -/
inductive Effect where
  | counterAdd (delta : Int)
  | invokeBase
  | spanRecordError (e : GoError)
  | spanSetStatus (code : Int)
deriving DecidableEq, Repr

/-- The runtime view of an `InstrumentedTransport`: its base delegate (none
means fall back to `http.DefaultTransport`) and its optional active-request
counter. -/
structure TransportRuntime where
  base : Option TransportBehavior
  activeRequests : Option Instrument

/-- The response-enrichment step of `RoundTrip` (after the delegate returns;
skipped entirely when the delegate panicked, because the deferred calls do
not include it): record the error if any, then attach the response status,
both only on a recording span. -/
def clientSpanEffects (recording : Bool) (res : RoundTripOutcome) : List Effect :=
  if recording then
    match res with
    | .panicked => []
    | .normal resp err =>
      (match err with
       | some e => [Effect.spanRecordError e]
       | none => []) ++
      (match resp with
       | some r => [Effect.spanSetStatus r.statusCode]
       | none => [])
  else []

/-- `InstrumentedTransport.RoundTrip`: inject propagation headers, bump the
active-request counter (decrement deferred to run last, on every exit path
including panic), delegate to the base (or `http.DefaultTransport` when the
base is nil), enrich the recording span, and return the delegate's result
unchanged. -/
def roundTrip (t : TransportRuntime) (defaultTransport : TransportBehavior)
    (req : Request) : RoundTripOutcome × List Effect :=
  let req1 := injectPropagation req
  let pre := match t.activeRequests with
    | some _ => [Effect.counterAdd 1]
    | none => []
  let rt := t.base.getD defaultTransport
  let res := rt req1
  let post := match t.activeRequests with
    | some _ => [Effect.counterAdd (-1)]
    | none => []
  (res, pre ++ Effect.invokeBase :: (clientSpanEffects req.ctxSpanRecording res ++ post))

/-- The sum of the counter adds in an effect trace — the net change the trace
applies to the shared active-request counter. -/
def counterDelta : List Effect → Int
  | [] => 0
  | .counterAdd d :: rest => d + counterDelta rest
  | .invokeBase :: rest => counterDelta rest
  | .spanRecordError _ :: rest => counterDelta rest
  | .spanSetStatus _ :: rest => counterDelta rest

/-- The active-request counter after a sequence of requests through the
instrumented transport, starting from `c`. -/
def transportCounterAfter (t : TransportRuntime) (dt : TransportBehavior)
    (reqs : List Request) (c : Int) : Int :=
  reqs.foldl (fun acc r => acc + counterDelta (roundTrip t dt r).2) c

/-- One action a handler performs on its `http.ResponseWriter`. -/
inductive WriteAction where
  | writeHeader (code : Int)
  | write (body : String)
deriving DecidableEq, Repr

/-- What a wrapped handler does on one request: the writer actions it
performs, in order, and whether it then panics (deferred cleanups still
run). -/
structure HandlerRun where
  writes : List WriteAction
  panicked : Bool
deriving DecidableEq, Repr

/-- An opaque `http.Handler` implementation as a behaviour. -/
abbrev HandlerBehavior := Request → HandlerRun

/-- The `responseRecorder` processing a stream of writer actions, starting
from recorded status `statusCode`: `WriteHeader` stores the code and forwards
the same code to the real writer; `Write` is delegated untouched to the
embedded writer. Returns the final recorded status and the forwarded
actions. -/
def responseRecorderRun (statusCode : Int) : List WriteAction → Int × List WriteAction
  | [] => (statusCode, [])
  | .writeHeader c :: rest =>
    let rr := responseRecorderRun c rest
    (rr.1, .writeHeader c :: rr.2)
  | .write b :: rest =>
    let rr := responseRecorderRun statusCode rest
    (rr.1, .write b :: rr.2)

/-- Span-level events of one inbound request, in order. -/
inductive SpanEvent where
  | started (name : String)
  | requestAttrsSet
  | statusAttrSet (code : Int)
  | ended
deriving DecidableEq, Repr

/-- The observable outcome of one `instrumentedHandler.ServeHTTP` call. -/
structure ServeResult where
  forwarded : List WriteAction
  recordedStatus : Int
  spanEvents : List SpanEvent
  effects : List Effect
  panicked : Bool
deriving DecidableEq, Repr

/-- The runtime view of an `instrumentedHandler`: the wrapped handler and its
optional active-request counter. -/
structure HandlerRuntime where
  base : HandlerBehavior
  activeRequests : Option Instrument

/-- `instrumentedHandler.ServeHTTP`: extract propagation headers, start a
server-kind span `"HTTP <method>"` (End deferred), set request attributes,
bump the active-request counter (decrement deferred, so it runs on every exit
path including a handler panic), wrap the writer in a `responseRecorder`
initialised to 200, invoke the wrapped handler, then attach the recorded
status to the span (skipped when the handler panicked) and end the span. -/
def serveHTTP (h : HandlerRuntime) (r : Request) : ServeResult :=
  let spanStart := [SpanEvent.started ("HTTP " ++ r.method), SpanEvent.requestAttrsSet]
  let pre := match h.activeRequests with
    | some _ => [Effect.counterAdd 1]
    | none => []
  let post := match h.activeRequests with
    | some _ => [Effect.counterAdd (-1)]
    | none => []
  let run := h.base r
  let rr := responseRecorderRun 200 run.writes
  let statusFx := if run.panicked then [] else [SpanEvent.statusAttrSet rr.1]
  { forwarded := rr.2
  , recordedStatus := rr.1
  , spanEvents := spanStart ++ statusFx ++ [SpanEvent.ended]
  , effects := pre ++ Effect.invokeBase :: post
  , panicked := run.panicked }

/-- The active-request counter after a sequence of requests through the
instrumented handler, starting from `c`. -/
def handlerCounterAfter (h : HandlerRuntime) (reqs : List Request) (c : Int) : Int :=
  reqs.foldl (fun acc r => acc + counterDelta (serveHTTP h r).effects) c

/-- The claim's reading of status capture: the FIRST status-code write wins
(default 200 when none occurs). Stated from the spec's words, for comparison
with the recorder the code implements. -/
def firstWrittenStatus : List WriteAction → Int
  | [] => 200
  | .writeHeader c :: _ => c
  | .write _ :: rest => firstWrittenStatus rest

/-- The status the recorder actually keeps: the LAST status-code write wins
(starting from `d`, the 200 the recorder is initialised with). -/
def lastWrittenStatus (d : Int) : List WriteAction → Int
  | [] => d
  | .writeHeader c :: rest => lastWrittenStatus c rest
  | .write _ :: rest => lastWrittenStatus d rest

/-- Whether the handler ever explicitly wrote a status code. -/
def hasStatusWrite : List WriteAction → Bool
  | [] => false
  | .writeHeader _ :: _ => true
  | .write _ :: rest => hasStatusWrite rest

/-- The transport record after `NewClient`'s default mutators: the documented
client defaults, spelled out. -/
def defaultTransportRecord : Transport :=
  { proxyFromEnvironment := true
  , forceAttemptHTTP2 := true
  , dialContext := some ⟨500 * millisecond, 30 * second⟩
  , tlsHandshakeTimeout := 500 * millisecond
  , responseHeaderTimeout := 1500 * millisecond
  , maxIdleConns := 100
  , idleConnTimeout := 90 * second
  , expectContinueTimeout := 1 * second }

/-- The client state after `NewClient`'s default mutators: the documented
defaults, spelled out. -/
def defaultedClient : Client :=
  { transport := .transport defaultTransportRecord
  , timeout := 2 * second }

/-- The server state after `NewServer`'s default mutators (before
finalization): read/write/idle timeouts of 2s each. -/
def defaultedServer (addr : String) (hd : Option Handler) : Server :=
  { server := { addr := addr, handler := hd
              , readTimeout := 2 * second, writeTimeout := 2 * second
              , idleTimeout := 2 * second, connStateHook := false }
  , tracer := none, meter := none
  , openConnections := none, activeRequests := none }

/-- The fully finalized server `NewServer "a" none` yields when the three
timeouts end up at `r`, `w`, `i`: ambient tracer/meter, both counters
created, `ConnState` hook installed, handler wrapped. -/
def finalizedSampleServer (r w i : Duration) : Server :=
  { server := { addr := "a"
              , handler := some (.instrumented .defaultServeMux
                  ⟨0, instrumentationName⟩ ⟨0, instrumentationName, []⟩
                  ⟨"http.server.active_requests"⟩)
              , readTimeout := r, writeTimeout := w, idleTimeout := i
              , connStateHook := true }
  , tracer := some ⟨0, instrumentationName⟩
  , meter := some ⟨0, instrumentationName, []⟩
  , openConnections := some ⟨"http.server.open_connections"⟩
  , activeRequests := some ⟨"http.server.active_requests"⟩ }

/-- The defaulted client with its transport record rewritten by `f` (the
state a transport-shaped caller override leaves behind). -/
def overriddenClient (f : Transport → Transport) : Client :=
  { defaultedClient with transport := RoundTripper.transport (f defaultTransportRecord) }

/-- Observer: the value of field `f` of the `*http.Transport` that
`getTransport` finds in the client, propagating the shape error. -/
def clientTransportField {α : Type} (f : Transport → α) (c : Client) : Except GoError α :=
  match getTransport c with
  | .error e => .error e
  | .ok t => .ok (f t)

/-- Observer: the value of field `f` of the transport of the client an option
produced, propagating both the option's error and the shape error. -/
def optionTransportField {α : Type} (f : Transport → α) (r : Except GoError Client) :
    Except GoError α :=
  match r with
  | .error e => .error e
  | .ok c => clientTransportField f c

/-- Whether the client's transport has one of the two shapes `getTransport`
accepts: a direct `*http.Transport`, or an `InstrumentedTransport` whose
`Base` is an `*http.Transport`. -/
def transportShaped (c : Client) : Bool :=
  match c.transport with
  | .transport _ => true
  | .instrumented (.transport _) _ => true
  | _ => false

/-- A sample request used by concrete witnesses. -/
def sampleRequest : Request :=
  { method := "GET", urlPath := "/", urlScheme := "http", host := "example"
  , userAgent := "ua", injectedTraceHeaders := 0, ctxSpanRecording := false }

/-- A sample request whose context carries a recording span. -/
def recordingRequest : Request :=
  { sampleRequest with ctxSpanRecording := true }

/-- A wrapped handler that writes a status twice: first 500, then 404. -/
def doubleWriteRuntime : HandlerRuntime :=
  { base := fun _ => { writes := [.writeHeader 500, .writeHeader 404], panicked := false }
  , activeRequests := none }

/-- A base transport behaviour that returns no response and no error. -/
def trivialTransport : TransportBehavior := fun _ => .normal none none

/-- A base transport behaviour that always fails with a dial error. -/
def failingTransport : TransportBehavior := fun _ => .normal none (some (.msg "dial failed"))

/-- A transport runtime with an active-request counter configured. -/
def countedTransport : TransportRuntime :=
  { base := some trivialTransport, activeRequests := some ⟨"http.client.active_requests"⟩ }

/-- A transport runtime with a failing base and no counter. -/
def failingTransportRuntime : TransportRuntime :=
  { base := some failingTransport, activeRequests := none }

/-- A handler runtime (no-op handler) with an active-request counter. -/
def countedHandler : HandlerRuntime :=
  { base := fun _ => { writes := [], panicked := false }
  , activeRequests := some ⟨"http.server.active_requests"⟩ }

/-! ## Helper lemmas -/

theorem applyClientOptions_append (l₁ l₂ : List ClientOption) (c : Client) :
    applyClientOptions (l₁ ++ l₂) c =
      match applyClientOptions l₁ c with
      | .error e => .error e
      | .ok c' => applyClientOptions l₂ c' := by
  induction l₁ generalizing c with
  | nil => rfl
  | cons o rest ih =>
    show applyClientOptions (o :: (rest ++ l₂)) c = _
    simp only [applyClientOptions]
    cases o c with
    | error e => rfl
    | ok c' => exact ih c'

theorem applyServerOptions_append (l₁ l₂ : List ServerOption) (s : Server) :
    applyServerOptions (l₁ ++ l₂) s =
      match applyServerOptions l₁ s with
      | .error e => .error e
      | .ok s' => applyServerOptions l₂ s' := by
  induction l₁ generalizing s with
  | nil => rfl
  | cons o rest ih =>
    show applyServerOptions (o :: (rest ++ l₂)) s = _
    simp only [applyServerOptions]
    cases o s with
    | error e => rfl
    | ok s' => exact ih s'

theorem NewClient_eq (opts : List ClientOption) :
    NewClient opts = applyClientOptions opts defaultedClient := rfl

theorem setTransport_ok {c c' : Client} {f : Transport → Transport}
    (h : setTransport c f = .ok c') :
    ∃ t, getTransport c = .ok t ∧ getTransport c' = .ok (f t) ∧ c'.timeout = c.timeout := by
  cases hc : c.transport with
  | nil => simp [setTransport, hc] at h
  | transport t =>
    simp only [setTransport, hc] at h
    cases h
    exact ⟨t, by simp [getTransport, hc], by simp [getTransport], rfl⟩
  | instrumented base fields =>
    cases hb : base with
    | transport t =>
      simp only [setTransport, hc, hb] at h
      cases h
      exact ⟨t, by simp [getTransport, hc, hb], by simp [getTransport], rfl⟩
    | nil => simp [setTransport, hc, hb] at h
    | instrumented b2 f2 => simp [setTransport, hc, hb] at h
    | other tag => simp [setTransport, hc, hb] at h
  | other tag => simp [setTransport, hc] at h

theorem finalizeServer_timeouts {s s' : Server} (h : finalizeServer s = .ok s') :
    s'.server.readTimeout = s.server.readTimeout ∧
    s'.server.writeTimeout = s.server.writeTimeout ∧
    s'.server.idleTimeout = s.server.idleTimeout := by
  simp only [finalizeServer] at h
  split at h
  · cases h
  · split at h
    · cases h
    · cases h
      exact ⟨rfl, rfl, rfl⟩

/-! ## C4 -/

/-- C4: a client constructed with no caller options has exactly the
documented defaults (total timeout 2s, connect 500ms, TLS handshake 500ms,
response-header 1.5s, max-idle-conns 100, idle-conn timeout 90s,
expect-continue 1s), and a server constructed with no caller options has
read, write and idle timeouts of 2s each. -/
theorem construction_defaults_exact :
    NewClient [] = .ok defaultedClient ∧
    ∀ (addr : String) (h : Option Handler), ∃ s, NewServer addr h [] = .ok s ∧
      s.server.readTimeout = 2 * second ∧
      s.server.writeTimeout = 2 * second ∧
      s.server.idleTimeout = 2 * second := by
  exact ⟨rfl, fun addr h => ⟨_, rfl, rfl, rfl, rfl⟩⟩

/-! ## C5 and C9 machinery -/

theorem NewClient_snoc (pre : List ClientOption) (o : ClientOption) :
    NewClient (pre ++ [o]) =
      match NewClient pre with
      | .error e => .error e
      | .ok c => o c := by
  rw [NewClient_eq, NewClient_eq, applyClientOptions_append]
  cases applyClientOptions pre defaultedClient with
  | error e => rfl
  | ok c =>
    show applyClientOptions [o] c = o c
    simp only [applyClientOptions]
    cases o c <;> rfl

theorem NewServer_eq (addr : String) (hd : Option Handler) (opts : List ServerOption) :
    NewServer addr hd opts =
      match applyServerOptions opts (defaultedServer addr hd) with
      | .error e => .error e
      | .ok s => finalizeServer s := rfl

theorem NewServer_snoc (addr : String) (hd : Option Handler)
    (pre : List ServerOption) (o : ServerOption) :
    NewServer addr hd (pre ++ [o]) =
      match applyServerOptions pre (defaultedServer addr hd) with
      | .error e => .error e
      | .ok s =>
        match o s with
        | .error e => .error e
        | .ok s' => finalizeServer s' := by
  rw [NewServer_eq, applyServerOptions_append]
  cases applyServerOptions pre (defaultedServer addr hd) with
  | error e => rfl
  | ok s =>
    simp only [applyServerOptions]
    cases o s <;> rfl

/-- C5: in any construction, a caller-supplied option that sets a field is
applied after the defaults (and after any earlier caller options), and its
write wins: the constructed object's field equals the caller's value,
whatever was written before. Stated for each field-setting option, with an
arbitrary prefix of earlier mutators. -/
theorem caller_override_wins :
    (∀ (pre : List ClientOption) (d : Duration) (c : Client),
        NewClient (pre ++ [WithTimeout d]) = .ok c → c.timeout = d) ∧
    (∀ (pre : List ClientOption) (d : Duration) (c : Client),
        NewClient (pre ++ [WithConnectTimeout d]) = .ok c →
        clientTransportField (fun t => t.dialContext) c = .ok (some ⟨d, 30 * second⟩)) ∧
    (∀ (pre : List ClientOption) (d : Duration) (c : Client),
        NewClient (pre ++ [WithTLSHandshakeTimeout d]) = .ok c →
        clientTransportField (fun t => t.tlsHandshakeTimeout) c = .ok d) ∧
    (∀ (pre : List ClientOption) (d : Duration) (c : Client),
        NewClient (pre ++ [WithResponseHeaderTimeout d]) = .ok c →
        clientTransportField (fun t => t.responseHeaderTimeout) c = .ok d) ∧
    (∀ (pre : List ClientOption) (n : Int) (c : Client),
        NewClient (pre ++ [WithMaxIdleConns n]) = .ok c →
        clientTransportField (fun t => t.maxIdleConns) c = .ok n) ∧
    (∀ (pre : List ClientOption) (d : Duration) (c : Client),
        NewClient (pre ++ [WithIdleConnTimeout d]) = .ok c →
        clientTransportField (fun t => t.idleConnTimeout) c = .ok d) ∧
    (∀ (pre : List ClientOption) (d : Duration) (c : Client),
        NewClient (pre ++ [WithExpectContinueTimeout d]) = .ok c →
        clientTransportField (fun t => t.expectContinueTimeout) c = .ok d) ∧
    (∀ (addr : String) (hd : Option Handler) (pre : List ServerOption) (d : Duration) (s : Server),
        NewServer addr hd (pre ++ [WithReadTimeout d]) = .ok s → s.server.readTimeout = d) ∧
    (∀ (addr : String) (hd : Option Handler) (pre : List ServerOption) (d : Duration) (s : Server),
        NewServer addr hd (pre ++ [WithWriteTimeout d]) = .ok s → s.server.writeTimeout = d) ∧
    (∀ (addr : String) (hd : Option Handler) (pre : List ServerOption) (d : Duration) (s : Server),
        NewServer addr hd (pre ++ [WithIdleTimeout d]) = .ok s → s.server.idleTimeout = d) := by
  have hclient : ∀ (o : ClientOption) (pre : List ClientOption) (c : Client),
      NewClient (pre ++ [o]) = .ok c → ∃ c₀, o c₀ = .ok c := by
    intro o pre c h
    rw [NewClient_snoc] at h
    split at h
    · cases h
    · exact ⟨_, h⟩
  have hserver : ∀ (o : ServerOption) (addr : String) (hd : Option Handler)
      (pre : List ServerOption) (s : Server),
      NewServer addr hd (pre ++ [o]) = .ok s →
      ∃ s₀ s₁, o s₀ = .ok s₁ ∧ finalizeServer s₁ = .ok s := by
    intro o addr hd pre s h
    rw [NewServer_snoc] at h
    split at h
    · cases h
    · split at h
      · cases h
      · rename_i s₁ hs₁
        exact ⟨_, _, hs₁, h⟩
  refine ⟨?_, ?_, ?_, ?_, ?_, ?_, ?_, ?_, ?_, ?_⟩
  · intro pre d c h
    obtain ⟨c₀, hc₀⟩ := hclient _ pre c h
    cases hc₀
    rfl
  · intro pre d c h
    obtain ⟨c₀, hc₀⟩ := hclient _ pre c h
    obtain ⟨t, -, hget, -⟩ := setTransport_ok hc₀
    simp [clientTransportField, hget]
  · intro pre d c h
    obtain ⟨c₀, hc₀⟩ := hclient _ pre c h
    obtain ⟨t, -, hget, -⟩ := setTransport_ok hc₀
    simp [clientTransportField, hget]
  · intro pre d c h
    obtain ⟨c₀, hc₀⟩ := hclient _ pre c h
    obtain ⟨t, -, hget, -⟩ := setTransport_ok hc₀
    simp [clientTransportField, hget]
  · intro pre n c h
    obtain ⟨c₀, hc₀⟩ := hclient _ pre c h
    obtain ⟨t, -, hget, -⟩ := setTransport_ok hc₀
    simp [clientTransportField, hget]
  · intro pre d c h
    obtain ⟨c₀, hc₀⟩ := hclient _ pre c h
    obtain ⟨t, -, hget, -⟩ := setTransport_ok hc₀
    simp [clientTransportField, hget]
  · intro pre d c h
    obtain ⟨c₀, hc₀⟩ := hclient _ pre c h
    obtain ⟨t, -, hget, -⟩ := setTransport_ok hc₀
    simp [clientTransportField, hget]
  · intro addr hd pre d s h
    obtain ⟨s₀, s₁, hs₁, hfin⟩ := hserver _ addr hd pre s h
    obtain ⟨hr, -, -⟩ := finalizeServer_timeouts hfin
    cases hs₁
    exact hr
  · intro addr hd pre d s h
    obtain ⟨s₀, s₁, hs₁, hfin⟩ := hserver _ addr hd pre s h
    obtain ⟨-, hw, -⟩ := finalizeServer_timeouts hfin
    cases hs₁
    exact hw
  · intro addr hd pre d s h
    obtain ⟨s₀, s₁, hs₁, hfin⟩ := hserver _ addr hd pre s h
    obtain ⟨-, -, hi⟩ := finalizeServer_timeouts hfin
    cases hs₁
    exact hi

/-- Witness for C5: concrete caller overrides on top of the defaults. -/
theorem caller_override_wins_witness :
    ({ defaultedClient with timeout := 5 } : Client).timeout = 5 ∧
    clientTransportField (fun t => t.dialContext)
      (overriddenClient (fun t => { t with dialContext := some ⟨7, 30 * second⟩ }))
      = .ok (some ⟨7, 30 * second⟩) ∧
    clientTransportField (fun t => t.tlsHandshakeTimeout)
      (overriddenClient (fun t => { t with tlsHandshakeTimeout := 7 })) = .ok 7 ∧
    clientTransportField (fun t => t.responseHeaderTimeout)
      (overriddenClient (fun t => { t with responseHeaderTimeout := 7 })) = .ok 7 ∧
    clientTransportField (fun t => t.maxIdleConns)
      (overriddenClient (fun t => { t with maxIdleConns := 7 })) = .ok 7 ∧
    clientTransportField (fun t => t.idleConnTimeout)
      (overriddenClient (fun t => { t with idleConnTimeout := 7 })) = .ok 7 ∧
    clientTransportField (fun t => t.expectContinueTimeout)
      (overriddenClient (fun t => { t with expectContinueTimeout := 7 })) = .ok 7 ∧
    (finalizedSampleServer 7 (2 * second) (2 * second)).server.readTimeout = 7 ∧
    (finalizedSampleServer (2 * second) 7 (2 * second)).server.writeTimeout = 7 ∧
    (finalizedSampleServer (2 * second) (2 * second) 7).server.idleTimeout = 7 := by
  obtain ⟨h1, h2, h3, h4, h5, h6, h7, h8, h9, h10⟩ := caller_override_wins
  exact ⟨h1 [] 5 _ rfl, h2 [] 7 _ rfl, h3 [] 7 _ rfl, h4 [] 7 _ rfl, h5 [] 7 _ rfl,
         h6 [] 7 _ rfl, h7 [] 7 _ rfl,
         h8 "a" none [] 7 _ rfl, h9 "a" none [] 7 _ rfl, h10 "a" none [] 7 _ rfl⟩

/-- C9: in either constructor, the first mutator to return an error aborts
construction with exactly that error, whatever mutators would have followed;
no usable object is returned (the `Except` carries only the error). -/
theorem mutator_error_aborts :
    (∀ (pre post : List ClientOption) (o : ClientOption) (c₀ : Client) (e : GoError),
        NewClient pre = .ok c₀ → o c₀ = .error e →
        NewClient (pre ++ o :: post) = .error e) ∧
    (∀ (addr : String) (hd : Option Handler) (pre post : List ServerOption)
        (o : ServerOption) (s₀ : Server) (e : GoError),
        applyServerOptions pre (defaultedServer addr hd) = .ok s₀ → o s₀ = .error e →
        NewServer addr hd (pre ++ o :: post) = .error e) := by
  constructor
  · intro pre post o c₀ e h1 h2
    rw [NewClient_eq] at h1 ⊢
    rw [applyClientOptions_append, h1]
    show applyClientOptions (o :: post) c₀ = .error e
    simp only [applyClientOptions]
    rw [h2]
  · intro addr hd pre post o s₀ e h1 h2
    rw [NewServer_eq, applyServerOptions_append, h1]
    simp only [applyServerOptions, h2]

/-- Witness for C9: a failing caller mutator aborts both constructors with
its error. -/
theorem mutator_error_aborts_witness :
    NewClient [fun _ => .error (.msg "boom")] = .error (.msg "boom") ∧
    NewServer "a" none [fun _ => .error (.msg "boom")] = .error (.msg "boom") := by
  constructor
  · exact mutator_error_aborts.1 [] [] _ defaultedClient (.msg "boom") rfl rfl
  · exact mutator_error_aborts.2 "a" none [] [] _ (defaultedServer "a" none) (.msg "boom") rfl rfl

/-! ## C3 -/

/-- C3: "ensure instrumented" on a client whose transport is already an
`InstrumentedTransport` returns that existing instance and leaves the
client's transport unchanged; applying it twice yields exactly what applying
it once yields; and the instance it returns is the one installed in the
client. -/
theorem ensure_instrumented_idempotent :
    ∀ (c : Client) (base : RoundTripper) (fields : ITFields),
      (c.transport = .instrumented base fields →
        ensureInstrumentedTransport c = ((base, fields), c)) ∧
      ensureInstrumentedTransport (ensureInstrumentedTransport c).2 =
        ensureInstrumentedTransport c ∧
      (ensureInstrumentedTransport c).2.transport =
        .instrumented (ensureInstrumentedTransport c).1.1 (ensureInstrumentedTransport c).1.2 := by
  intro c base fields
  refine ⟨fun h => by simp [ensureInstrumentedTransport, h], ?_, ?_⟩ <;>
    cases hc : c.transport <;> simp [ensureInstrumentedTransport, hc]

/-- Witness for C3: a concrete already-instrumented client is returned
as-is. -/
theorem ensure_instrumented_idempotent_witness :
    ensureInstrumentedTransport { transport := .instrumented .nil {}, timeout := 0 } =
      ((RoundTripper.nil, {}), { transport := .instrumented .nil {}, timeout := 0 }) :=
  (ensure_instrumented_idempotent
    { transport := .instrumented .nil {}, timeout := 0 } .nil {}).1 rfl

/-! ## C10 -/

/-- C10: the transport-shaped options succeed and mutate the underlying
`*http.Transport` exactly when the client's transport is a direct
`*http.Transport` or an `InstrumentedTransport` wrapping one; in any other
shape each returns the "transport is not *http.Transport" error. Hence a
wrapping instrumentation option may precede the timeout options without
failing construction. -/
theorem transport_options_shape :
    (∀ (c : Client) (d : Duration) (n : Int), transportShaped c = true →
      optionTransportField (fun t => t.dialContext) (WithConnectTimeout d c)
        = .ok (some ⟨d, 30 * second⟩) ∧
      optionTransportField (fun t => t.tlsHandshakeTimeout) (WithTLSHandshakeTimeout d c) = .ok d ∧
      optionTransportField (fun t => t.responseHeaderTimeout) (WithResponseHeaderTimeout d c) = .ok d ∧
      optionTransportField (fun t => t.maxIdleConns) (WithMaxIdleConns n c) = .ok n ∧
      optionTransportField (fun t => t.idleConnTimeout) (WithIdleConnTimeout d c) = .ok d ∧
      optionTransportField (fun t => t.expectContinueTimeout) (WithExpectContinueTimeout d c)
        = .ok d) ∧
    (∀ (c : Client) (d : Duration) (n : Int), transportShaped c = false →
      WithConnectTimeout d c = .error errNotTransport ∧
      WithTLSHandshakeTimeout d c = .error errNotTransport ∧
      WithResponseHeaderTimeout d c = .error errNotTransport ∧
      WithMaxIdleConns n c = .error errNotTransport ∧
      WithIdleConnTimeout d c = .error errNotTransport ∧
      WithExpectContinueTimeout d c = .error errNotTransport) ∧
    (∀ (tp : TracerProvider) (d : Duration),
      ∃ c, NewClient [WithClientTracerProvider tp, WithConnectTimeout d] = .ok c ∧
        clientTransportField (fun t => t.dialContext) c = .ok (some ⟨d, 30 * second⟩)) := by
  have hset : ∀ (c : Client) (f : Transport → Transport), transportShaped c = true →
      ∃ t c', getTransport c = .ok t ∧ setTransport c f = .ok c' ∧
        getTransport c' = .ok (f t) := by
    intro c f hs
    cases hc : c.transport with
    | nil => simp [transportShaped, hc] at hs
    | transport t =>
      refine ⟨t, { c with transport := .transport (f t) }, ?_, ?_, ?_⟩ <;>
        simp [getTransport, setTransport, hc]
    | instrumented base fields =>
      cases hb : base with
      | transport t =>
        refine ⟨t, { c with transport := .instrumented (.transport (f t)) fields }, ?_, ?_, ?_⟩ <;>
          simp [getTransport, setTransport, hc, hb]
      | nil => simp [transportShaped, hc, hb] at hs
      | instrumented b2 f2 => simp [transportShaped, hc, hb] at hs
      | other tag => simp [transportShaped, hc, hb] at hs
    | other tag => simp [transportShaped, hc] at hs
  have hsetErr : ∀ (c : Client) (f : Transport → Transport), transportShaped c = false →
      setTransport c f = .error errNotTransport := by
    intro c f hs
    cases hc : c.transport with
    | nil => simp [setTransport, hc]
    | transport t => simp [transportShaped, hc] at hs
    | instrumented base fields =>
      cases hb : base with
      | transport t => simp [transportShaped, hc, hb] at hs
      | nil => simp [setTransport, hc, hb]
      | instrumented b2 f2 => simp [setTransport, hc, hb]
      | other tag => simp [setTransport, hc, hb]
    | other tag => simp [setTransport, hc]
  refine ⟨?_, ?_, ?_⟩
  · intro c d n hs
    refine ⟨?_, ?_, ?_, ?_, ?_, ?_⟩
    · obtain ⟨t, c', -, hst, hget'⟩ :=
        hset c (fun t => { t with dialContext := some ⟨d, 30 * second⟩ }) hs
      simp [WithConnectTimeout, hst, optionTransportField, clientTransportField, hget']
    · obtain ⟨t, c', -, hst, hget'⟩ := hset c (fun t => { t with tlsHandshakeTimeout := d }) hs
      simp [WithTLSHandshakeTimeout, hst, optionTransportField, clientTransportField, hget']
    · obtain ⟨t, c', -, hst, hget'⟩ := hset c (fun t => { t with responseHeaderTimeout := d }) hs
      simp [WithResponseHeaderTimeout, hst, optionTransportField, clientTransportField, hget']
    · obtain ⟨t, c', -, hst, hget'⟩ := hset c (fun t => { t with maxIdleConns := n }) hs
      simp [WithMaxIdleConns, hst, optionTransportField, clientTransportField, hget']
    · obtain ⟨t, c', -, hst, hget'⟩ := hset c (fun t => { t with idleConnTimeout := d }) hs
      simp [WithIdleConnTimeout, hst, optionTransportField, clientTransportField, hget']
    · obtain ⟨t, c', -, hst, hget'⟩ := hset c (fun t => { t with expectContinueTimeout := d }) hs
      simp [WithExpectContinueTimeout, hst, optionTransportField, clientTransportField, hget']
  · intro c d n hs
    exact ⟨hsetErr c _ hs, hsetErr c _ hs, hsetErr c _ hs,
           hsetErr c _ hs, hsetErr c _ hs, hsetErr c _ hs⟩
  · intro tp d
    exact ⟨_, rfl, rfl⟩

/-- Witness for C10: the shaped case at the defaulted client, the unshaped
case at a client with a nil transport. -/
theorem transport_options_shape_witness :
    optionTransportField (fun t => t.tlsHandshakeTimeout)
      (WithTLSHandshakeTimeout 7 defaultedClient) = .ok 7 ∧
    WithTLSHandshakeTimeout 7 { transport := .nil, timeout := 0 } = .error errNotTransport := by
  constructor
  · exact (transport_options_shape.1 defaultedClient 7 0 rfl).2.1
  · exact ((transport_options_shape.2.1 { transport := .nil, timeout := 0 } 7 0) rfl).2.1

/-! ## C6 and C7 -/

/-- C6: a listener-fatal error arriving before any termination signal makes
`Run` return an error wrapping that listener error, and no graceful drain
(`Shutdown`) is attempted. -/
theorem listener_error_no_drain :
    ∀ (e : GoError) (d : Duration),
      runServer (.listenerError e) d =
        { result := some (.wrapServerError e), drainAttempted := false } ∧
      (GoError.wrapServerError e).unwrap = some e := by
  intro e d
  exact ⟨rfl, rfl⟩

/-- C7: a termination signal arriving first starts a graceful drain bounded
by the fixed 5-second grace budget; a drain within the budget makes `Run`
return nil, and an elapsed budget makes it return a non-nil error wrapping
the deadline error, annotated with the triggering signal. -/
theorem signal_drain_grace :
    shutdownGracePeriod = 5 * second ∧
    ∀ (sig : Sig) (d : Duration),
      (d ≤ shutdownGracePeriod →
        runServer (.signal sig) d = { result := none, drainAttempted := true }) ∧
      (shutdownGracePeriod < d →
        runServer (.signal sig) d =
          { result := some (.wrapShutdownError .deadlineExceeded sig)
          , drainAttempted := true } ∧
        GoError.signalOf (GoError.wrapShutdownError .deadlineExceeded sig) = some sig ∧
        (GoError.wrapShutdownError .deadlineExceeded sig).unwrap = some .deadlineExceeded) := by
  refine ⟨rfl, fun sig d => ⟨?_, ?_⟩⟩
  · intro h
    simp [runServer, shutdownResult, h]
  · intro h
    have hn : ¬ d ≤ shutdownGracePeriod := not_le.mpr h
    exact ⟨by simp [runServer, shutdownResult, hn], rfl, rfl⟩

/-- Witness for C7: an instant drain returns nil; a 6s drain against the 5s
budget returns the annotated timeout error. -/
theorem signal_drain_grace_witness :
    runServer (.signal .interrupt) 0 = { result := none, drainAttempted := true } ∧
    runServer (.signal .term) (6 * second) =
      { result := some (.wrapShutdownError .deadlineExceeded .term)
      , drainAttempted := true } := by
  constructor
  · exact (signal_drain_grace.2 .interrupt 0).1 (by decide)
  · exact ((signal_drain_grace.2 .term (6 * second)).2 (by decide)).1

/-! ## C8 -/

/-- C8: the decorated transport returns to its caller exactly the
(response, error) outcome the wrapped base capability produced (the base
being the configured delegate, or the ambient default transport when none is
configured); a base error is recorded on the recording span rather than
suppressed or transformed. -/
theorem roundtrip_passthrough :
    (∀ (t : TransportRuntime) (dt : TransportBehavior) (req : Request),
        (roundTrip t dt req).1 = (t.base.getD dt) (injectPropagation req)) ∧
    (∀ (t : TransportRuntime) (dt : TransportBehavior) (req : Request)
        (e : GoError) (resp : Option Response),
        req.ctxSpanRecording = true →
        (t.base.getD dt) (injectPropagation req) = .normal resp (some e) →
        Effect.spanRecordError e ∈ (roundTrip t dt req).2) := by
  constructor
  · intro t dt req
    rfl
  · intro t dt req e resp hrec hres
    cases hA : t.activeRequests <;> cases resp <;>
      simp [roundTrip, hA, hres, clientSpanEffects, hrec]

/-- Witness for C8: a failing base's error is recorded on the recording
span. -/
theorem roundtrip_passthrough_witness :
    Effect.spanRecordError (.msg "dial failed") ∈
      (roundTrip failingTransportRuntime trivialTransport recordingRequest).2 :=
  roundtrip_passthrough.2 failingTransportRuntime trivialTransport recordingRequest
    (.msg "dial failed") none rfl rfl

/-! ## C1 -/

theorem counterDelta_append (l₁ l₂ : List Effect) :
    counterDelta (l₁ ++ l₂) = counterDelta l₁ + counterDelta l₂ := by
  induction l₁ with
  | nil => simp [counterDelta]
  | cons e rest ih => cases e <;> (simp [counterDelta, ih]; try ring)

theorem counterDelta_clientSpanEffects (b : Bool) (res : RoundTripOutcome) :
    counterDelta (clientSpanEffects b res) = 0 := by
  cases b with
  | false => rfl
  | true =>
    cases res with
    | panicked => rfl
    | normal resp err =>
      cases resp <;> cases err <;>
        simp [clientSpanEffects, counterDelta, counterDelta_append]

theorem clientSpanEffects_no_counter (b : Bool) (res : RoundTripOutcome) :
    ∀ e ∈ clientSpanEffects b res, ∀ d, e ≠ Effect.counterAdd d := by
  intro e he d
  cases b with
  | false => simp [clientSpanEffects] at he
  | true =>
    cases res with
    | panicked => simp [clientSpanEffects] at he
    | normal resp err =>
      cases resp with
      | none =>
        cases err with
        | none => simp [clientSpanEffects] at he
        | some ev =>
          simp [clientSpanEffects] at he
          subst he; simp
      | some r =>
        cases err with
        | none =>
          simp [clientSpanEffects] at he
          subst he; simp
        | some ev =>
          simp [clientSpanEffects] at he
          rcases he with rfl | rfl <;> simp

/-- C1: on the decorated transport and handler alike, a configured
active-request counter is incremented by exactly one before the wrapped
capability is invoked and decremented by exactly one afterwards, on every
exit path (all other effects touch only the span); so each request's net
counter change is zero, and after any sequence of requests — failing or
panicking ones included — the counter equals its pre-sequence value. -/
theorem active_requests_paired :
    (∀ (t : TransportRuntime) (dt : TransportBehavior) (req : Request),
        counterDelta (roundTrip t dt req).2 = 0) ∧
    (∀ (t : TransportRuntime) (dt : TransportBehavior) (i : Instrument) (req : Request),
        t.activeRequests = some i →
        (roundTrip t dt req).2 =
          Effect.counterAdd 1 :: Effect.invokeBase ::
            (clientSpanEffects req.ctxSpanRecording
              ((t.base.getD dt) (injectPropagation req)) ++ [Effect.counterAdd (-1)]) ∧
        ∀ e ∈ clientSpanEffects req.ctxSpanRecording
            ((t.base.getD dt) (injectPropagation req)),
          ∀ d, e ≠ Effect.counterAdd d) ∧
    (∀ (h : HandlerRuntime) (req : Request),
        counterDelta (serveHTTP h req).effects = 0) ∧
    (∀ (h : HandlerRuntime) (i : Instrument) (req : Request),
        h.activeRequests = some i →
        (serveHTTP h req).effects =
          [Effect.counterAdd 1, Effect.invokeBase, Effect.counterAdd (-1)]) ∧
    (∀ (t : TransportRuntime) (dt : TransportBehavior) (reqs : List Request) (c : Int),
        transportCounterAfter t dt reqs c = c) ∧
    (∀ (h : HandlerRuntime) (reqs : List Request) (c : Int),
        handlerCounterAfter h reqs c = c) := by
  have h1 : ∀ (t : TransportRuntime) (dt : TransportBehavior) (req : Request),
      counterDelta (roundTrip t dt req).2 = 0 := by
    intro t dt req
    cases hA : t.activeRequests <;>
      simp [roundTrip, hA, counterDelta, counterDelta_append, counterDelta_clientSpanEffects]
  have h3 : ∀ (h : HandlerRuntime) (req : Request),
      counterDelta (serveHTTP h req).effects = 0 := by
    intro h req
    cases hA : h.activeRequests <;> simp [serveHTTP, hA, counterDelta]
  refine ⟨h1, ?_, h3, ?_, ?_, ?_⟩
  · intro t dt i req hA
    exact ⟨by simp [roundTrip, hA], clientSpanEffects_no_counter _ _⟩
  · intro h i req hA
    simp [serveHTTP, hA]
  · intro t dt reqs c
    induction reqs generalizing c with
    | nil => rfl
    | cons r rest ih =>
      show transportCounterAfter t dt rest (c + counterDelta (roundTrip t dt r).2) = c
      rw [h1, add_zero]
      exact ih c
  · intro h reqs c
    induction reqs generalizing c with
    | nil => rfl
    | cons r rest ih =>
      show handlerCounterAfter h rest (c + counterDelta (serveHTTP h r).effects) = c
      rw [h3, add_zero]
      exact ih c

/-- Witness for C1: one request through a counted transport and a counted
handler produces exactly the increment/invoke/decrement trace. -/
theorem active_requests_paired_witness :
    (roundTrip countedTransport trivialTransport sampleRequest).2 =
      [Effect.counterAdd 1, Effect.invokeBase, Effect.counterAdd (-1)] ∧
    (serveHTTP countedHandler sampleRequest).effects =
      [Effect.counterAdd 1, Effect.invokeBase, Effect.counterAdd (-1)] := by
  constructor
  · exact (active_requests_paired.2.1 countedTransport trivialTransport
      ⟨"http.client.active_requests"⟩ sampleRequest rfl).1
  · exact active_requests_paired.2.2.2.1 countedHandler
      ⟨"http.server.active_requests"⟩ sampleRequest rfl

/-! ## C2 -/

theorem responseRecorderRun_spec (st : Int) (ws : List WriteAction) :
    responseRecorderRun st ws = (lastWrittenStatus st ws, ws) := by
  induction ws generalizing st with
  | nil => rfl
  | cons a rest ih =>
    cases a with
    | writeHeader c => simp [responseRecorderRun, lastWrittenStatus, ih]
    | write b => simp [responseRecorderRun, lastWrittenStatus, ih]

theorem lastWrittenStatus_default (st : Int) (ws : List WriteAction) :
    hasStatusWrite ws = false → lastWrittenStatus st ws = st := by
  induction ws generalizing st with
  | nil => intro _; rfl
  | cons a rest ih =>
    intro h
    cases a with
    | writeHeader c => simp [hasStatusWrite] at h
    | write b => exact ih st h

/-- C2 counterexample: a handler may write a status twice (500, then 404);
the recorder then holds the LAST status write, not the first, and the span's
response status attribute is 404 even though the first write was 500. -/
theorem response_status_first_refuted :
    firstWrittenStatus [.writeHeader 500, .writeHeader 404] = 500 ∧
    (serveHTTP doubleWriteRuntime sampleRequest).recordedStatus = 404 ∧
    SpanEvent.statusAttrSet 404 ∈ (serveHTTP doubleWriteRuntime sampleRequest).spanEvents ∧
    ¬ (SpanEvent.statusAttrSet 500 ∈ (serveHTTP doubleWriteRuntime sampleRequest).spanEvents) := by
  refine ⟨rfl, rfl, ?_, ?_⟩ <;>
    simp [serveHTTP, doubleWriteRuntime, sampleRequest, responseRecorderRun]

/-- C2 (amended): the recorder forwards the handler's writes to the real
writer unchanged; the captured status is the last explicitly written status
code, defaulting to 200 when none is written; and, when the handler does not
panic, the span carries exactly one response status attribute — the captured
status — and is ended exactly once. -/
theorem response_status_capture :
    ∀ (h : HandlerRuntime) (r : Request),
      (serveHTTP h r).forwarded = (h.base r).writes ∧
      (serveHTTP h r).recordedStatus = lastWrittenStatus 200 (h.base r).writes ∧
      (hasStatusWrite (h.base r).writes = false → (serveHTTP h r).recordedStatus = 200) ∧
      ((h.base r).panicked = false →
        (serveHTTP h r).spanEvents =
          [SpanEvent.started ("HTTP " ++ r.method), SpanEvent.requestAttrsSet,
           SpanEvent.statusAttrSet ((serveHTTP h r).recordedStatus), SpanEvent.ended] ∧
        ((serveHTTP h r).spanEvents.count
          (SpanEvent.statusAttrSet ((serveHTTP h r).recordedStatus))) = 1 ∧
        ((serveHTTP h r).spanEvents.count SpanEvent.ended) = 1) := by
  intro h r
  have hst : (serveHTTP h r).recordedStatus = lastWrittenStatus 200 (h.base r).writes := by
    simp [serveHTTP, responseRecorderRun_spec]
  refine ⟨by simp [serveHTTP, responseRecorderRun_spec], hst, ?_, ?_⟩
  · intro hno
    rw [hst]
    exact lastWrittenStatus_default 200 _ hno
  · intro hnp
    have hev : (serveHTTP h r).spanEvents =
        [SpanEvent.started ("HTTP " ++ r.method), SpanEvent.requestAttrsSet,
         SpanEvent.statusAttrSet ((serveHTTP h r).recordedStatus), SpanEvent.ended] := by
      simp [serveHTTP, hnp]
    refine ⟨hev, ?_, ?_⟩ <;> rw [hev] <;> simp [List.count_cons]

/-- Witness for C2 (amended): a no-op handler yields the default 200 and a
span trace with exactly one status attribute and one End. -/
theorem response_status_capture_witness :
    (serveHTTP countedHandler sampleRequest).recordedStatus = 200 ∧
    (serveHTTP countedHandler sampleRequest).spanEvents =
      [SpanEvent.started "HTTP GET", SpanEvent.requestAttrsSet,
       SpanEvent.statusAttrSet 200, SpanEvent.ended] := by
  obtain ⟨-, -, h3, h4⟩ := response_status_capture countedHandler sampleRequest
  exact ⟨h3 rfl, (h4 rfl).1⟩

end StdlibHttp
